import Mathlib

/-!
Verification of the answer-checker repository.

Shallow embedding of the three source files:
* `netlify/functions/evaluate.mjs` (`handler`, helper `clamp`) — the serving
  HTTP handler, embedded as the function `handler` below;
* `netlify/functions/evaluate.js` — this ES module `const`-redeclares
  `maxMarks` at the top level of one block (the destructuring on line 17 and
  `const maxMarks = Number(body.maxMarks)` on line 107, both directly in the
  `try` block of the default export), which is an early Syntax Error: the
  module fails at parse time, its default export never exists, and it serves
  no response on any request.  Only two things from this file are embedded:
  its helper `clampNumber` (an independently well-formed function body,
  character-identical to `clamp` of `evaluate.mjs`, compared by claim C2),
  and the static duplicate-declaration check itself
  (`evaluateJsTryBlockLexicalNames`, `hasDuplicateName`);
* `public/app.js` (content assembler: PDF/PPTX extraction and dispatch).

Modelling conventions:
* JS strings are `List Char` (JS `.length`/`.slice` count UTF-16 units; all
  characters occurring in the embedded computations are ASCII, where the two
  notions agree).
* JS numbers are `ℚ`; a value `v` for which `Number(v)` is `NaN` — and an
  absent (`undefined`) field — is `none` in an `Option ℚ`.  `Math.round` is
  `fun q => ⌊q + 1/2⌋`, which matches JS on all inputs (JS rounds ties toward
  `+∞`), ignoring binary floating-point representation error.
* Fallible operations (JSON parsing of the request body and of the model's
  reply) are `Option`-valued inputs: `none` is a parse failure.  The external
  model call is an `Except` input: `.error msg` models a thrown exception
  whose `message` is `msg`, `.ok p` a completed call whose reply content
  parsed to `p` (`p = none` when `JSON.parse` of the reply content throws).
-/

/-- The character list of a string literal (JS string values are embedded as
`List Char`). -/
def str (s : String) : List Char := s.data

/-- JS `Math.round`: round half toward positive infinity, i.e. `⌊q + 1/2⌋`.
Written via numerator/denominator division so that it evaluates by `decide`. -/
def jsRound (q : ℚ) : ℤ := (q + 1/2).num / ((q + 1/2).den : ℤ)

/-- `jsRound` is the floor of `q + 1/2`. -/
theorem jsRound_eq_floor (q : ℚ) : jsRound q = ⌊q + 1/2⌋ := Rat.floor_def.symm

/-- `clamp(n, min, max)` from `evaluate.mjs` lines 121–125:
`n = Number(n); if (Number.isNaN(n)) return min; return Math.max(min, Math.min(max, n))`.
The argument is `none` when `Number(n)` is `NaN` (absent field or non-numeric
value). -/
def clamp (n : Option ℚ) (lo hi : ℚ) : ℚ :=
  match n with
  | none => lo
  | some v => max lo (min hi v)

/-- `clampNumber(n, min, max)` from `evaluate.js` lines 142–146 (character-for-
character the same body as `clamp` in `evaluate.mjs`; the function body is
well-formed on its own even though the surrounding module fails to parse —
see the duplicate-declaration check below). -/
def clampNumber (n : Option ℚ) (lo hi : ℚ) : ℚ :=
  match n with
  | none => lo
  | some v => max lo (min hi v)

/-- Claim C2: for every input `x`, `clamp(x, 0, 100)` returns `0` when `x` is
non-numeric (its `Number` conversion is `NaN`) or `x < 0`, returns `100` when
`x > 100`, and returns `x` itself otherwise.  Stated for both copies of the
helper (`clamp` in `evaluate.mjs` and `clampNumber` in `evaluate.js`). -/
theorem C2_clamp_spec (x : Option ℚ) :
    (x = none → clamp x 0 100 = 0 ∧ clampNumber x 0 100 = 0) ∧
    ∀ v, x = some v →
      (v < 0 → clamp x 0 100 = 0 ∧ clampNumber x 0 100 = 0) ∧
      (100 < v → clamp x 0 100 = 100 ∧ clampNumber x 0 100 = 100) ∧
      (0 ≤ v → v ≤ 100 → clamp x 0 100 = v ∧ clampNumber x 0 100 = v) := by
  constructor
  · rintro rfl; exact ⟨rfl, rfl⟩
  · rintro v rfl
    refine ⟨fun h => ?_, fun h => ?_, fun h1 h2 => ?_⟩
    · have hmin : min (100 : ℚ) v = v := min_eq_right (by linarith)
      have hmax : max (0 : ℚ) v = 0 := max_eq_left (by linarith)
      constructor <;> simp [clamp, clampNumber, hmin, hmax]
    · have hmin : min (100 : ℚ) v = 100 := min_eq_left (by linarith)
      constructor <;> simp [clamp, clampNumber, hmin]
    · have hmin : min (100 : ℚ) v = v := min_eq_right h2
      have hmax : max (0 : ℚ) v = v := max_eq_right h1
      constructor <;> simp [clamp, clampNumber, hmin, hmax]

/-- Witness for C2 at concrete inputs: a negative number, an overflowing
number, an in-range number and a non-numeric input. -/
theorem C2_clamp_spec_witness :
    (clamp (some (-7)) 0 100 = 0 ∧ clampNumber (some (-7)) 0 100 = 0) ∧
    (clamp (some 250) 0 100 = 100 ∧ clampNumber (some 250) 0 100 = 100) ∧
    (clamp (some 42) 0 100 = 42 ∧ clampNumber (some 42) 0 100 = 42) ∧
    (clamp none 0 100 = 0 ∧ clampNumber none 0 100 = 0) :=
  ⟨((C2_clamp_spec (some (-7))).2 (-7) rfl).1 (by norm_num),
   ((C2_clamp_spec (some 250)).2 250 rfl).2.1 (by norm_num),
   ((C2_clamp_spec (some 42)).2 42 rfl).2.2 (by norm_num) (by norm_num),
   (C2_clamp_spec none).1 rfl⟩

/-! ### Data model of the HTTP handlers

Both server files destructure the request body as
`{ question, maxMarks, examType, timeLimit, texts = [], images = [] }`.
An absent field is `none`.  `question`/`examType` are strings, `maxMarks`/
`timeLimit` numbers (the embedded domain; a non-numeric JSON value in a
numeric field is outside the modelled input space, and the claims do not
exercise it). -/

/-- A `{source, text}` entry of the `texts` array.  `source` is `none` when
the JSON object lacks the key. -/
structure TextSource where
  source : Option (List Char)
  text : List Char
deriving DecidableEq

/-- A `{mime, dataUrl}` entry of the `images` array. -/
structure ImageBlob where
  mime : List Char
  dataUrl : List Char
deriving DecidableEq

/-- The parsed JSON request body. -/
structure ReqBody where
  question : Option (List Char)
  maxMarks : Option ℚ
  examType : Option (List Char)
  timeLimit : Option ℚ
  texts : List TextSource
  images : List ImageBlob
deriving DecidableEq

/-- The rubric object of the model's reply: each key of the documented schema
may be absent. -/
structure Rubric where
  content_relevance_accuracy : Option ℚ
  analysis_depth_linkages : Option ℚ
  structure_intro_body_conclusion : Option ℚ
  use_of_examples_cases_data_diagrams : Option ℚ
  clarity_language_and_presentation : Option ℚ
  value_add : Option ℚ
deriving DecidableEq

/-- The empty JSON object `{}` read at the rubric schema. -/
def emptyRubric : Rubric := ⟨none, none, none, none, none, none⟩

/-- The model reply content, parsed as JSON: every field is optional.
`rawOutOf100 = none` models a field whose `Number` conversion is `NaN`
(including an absent field). -/
structure ModelOutput where
  rawOutOf100 : Option ℚ
  rubric : Option Rubric
  strengths : Option (List (List Char))
  weaknesses : Option (List (List Char))
  suggestions : Option (List (List Char))
  inline_comments : Option (List (List Char))
deriving DecidableEq

/-- The empty JSON object `{}` read at the model-output schema; this is what
`JSON.parse("{}")` yields, and also the `parsed = {}` fallback installed by
the `catch` around `JSON.parse(raw)`. -/
def emptyModelOutput : ModelOutput := ⟨none, none, none, none, none, none⟩

/-- The normalized result object `resp` built by both handlers and serialized
with `JSON.stringify`. -/
structure EvalResult where
  rawOutOf100 : ℚ
  rubric : Rubric
  strengths : List (List Char)
  weaknesses : List (List Char)
  suggestions : List (List Char)
  inline_comments : List (List Char)
  totalScaled : ℤ
  maxMarks : ℚ
deriving DecidableEq

/-- One entry of the `userContent` array sent to the model.  The leading
instruction segment (a template string interpolating the question, resolved
exam type, optional time limit and max marks) is kept as structured data
rather than rendered to characters; the rendering is injective in these
fields, and no claim inspects the rendered characters of this segment. -/
inductive ContentPart where
  | header (question : List Char) (examType : List Char)
      (timeLimit : Option ℚ) (maxMarks : Option ℚ)
  | text (s : List Char)
  | image_url (url : List Char)
deriving DecidableEq

/-- A response body: plain text, a serialized `EvalResult`, or the `message`
of an exception raised by the JS runtime while parsing the request body (an
engine-supplied string the embedding does not fix). -/
inductive RespBody where
  | text (s : List Char)
  | json (r : EvalResult)
  | jsError
deriving DecidableEq

/-- An HTTP response: status code plus body (`evaluate.mjs` returns
`{statusCode, body}`, read as this pair). -/
structure Response where
  statusCode : Nat
  body : RespBody
deriving DecidableEq

/-- JS truthiness of a string field: `undefined` and `""` are falsy. -/
def truthyStr : Option (List Char) → Bool
  | none => false
  | some s => !s.isEmpty

/-- JS truthiness of a numeric field: `undefined` and `0` are falsy. -/
def truthyNum : Option ℚ → Bool
  | none => false
  | some v => decide (v ≠ 0)

/-- JS `x || d` for string values (used as `t.source || "unknown"` and
`examType || "GS"`). -/
def jsOrStr (x : Option (List Char)) (d : List Char) : List Char :=
  match x with
  | none => d
  | some s => if s.isEmpty then d else s

/-- `bigText` from both server files:
`texts.map(t => "\n\n[Source: " + (t.source || "unknown") + "]\n" + t.text).join("\n")`. -/
def bigTextOf (texts : List TextSource) : List Char :=
  List.intercalate (str "\n")
    (texts.map fun t =>
      str "\n\n[Source: " ++ jsOrStr t.source (str "unknown") ++ str "]\n" ++ t.text)

/-- `trimmed` from both server files:
`bigText.length > 150000 ? bigText.slice(0, 150000) + "\n...[trimmed]" : bigText`. -/
def trimBlock (s : List Char) : List Char :=
  if 150000 < s.length then s.take 150000 ++ str "\n...[trimmed]" else s

/-- The `userContent` array built by both server files (lines 22–51 of
`evaluate.js`, lines 24–45 of `evaluate.mjs`; the two passages build the same
value). -/
def userContentOf (b : ReqBody) : List ContentPart :=
  let header := ContentPart.header (b.question.getD [])
    (jsOrStr b.examType (str "GS"))
    (if truthyNum b.timeLimit then b.timeLimit else none) b.maxMarks
  let withTexts :=
    if b.texts.isEmpty then [header]
    else [header, ContentPart.text (trimBlock (bigTextOf b.texts))]
  if b.images.isEmpty then withTexts
  else withTexts ++ (b.images.take 12).map (fun img => ContentPart.image_url img.dataUrl)
    ++ [ContentPart.text (str "If images contain handwriting or printed text, perform OCR before evaluation.")]

/-- `handler(event)` from `evaluate.mjs`: method check, `OPENAI_API_KEY`
check, body parse (`none` = `JSON.parse` threw, caught by the outer `catch`),
validation, prompt assembly, model call (an `Except` input: `.error msg` = the
call threw with `err.message = msg`; `.ok p` = the call returned and its
content parsed to `p`, where `p = none` means `JSON.parse(raw)` threw and the
`catch` substituted `{}`), then clamping, scaling and the 200 response. -/
def handler (apiKeyPresent : Bool) (httpMethod : List Char) (body : Option ReqBody)
    (modelCall : Except (List Char) (Option ModelOutput)) : Response :=
  if httpMethod ≠ str "POST" then ⟨405, .text (str "Method not allowed")⟩
  else if !apiKeyPresent then ⟨500, .text (str "OPENAI_API_KEY is not set")⟩
  else
    match body with
    | none => ⟨500, .jsError⟩
    | some b =>
      if !truthyStr b.question || !truthyNum b.maxMarks then
        ⟨400, .text (str "Missing question or maxMarks")⟩
      else
        let _userContent := userContentOf b
        match modelCall with
        | .error e => ⟨500, .text (if e.isEmpty then str "Internal error" else e)⟩
        | .ok reply =>
          let parsed := reply.getD emptyModelOutput
          let rawOutOf100 := clamp parsed.rawOutOf100 0 100
          let mm := b.maxMarks.getD 0
          let scaled := jsRound (rawOutOf100 / 100 * mm)
          ⟨200, .json
            { rawOutOf100 := rawOutOf100
              rubric := parsed.rubric.getD emptyRubric
              strengths := parsed.strengths.getD []
              weaknesses := parsed.weaknesses.getD []
              suggestions := parsed.suggestions.getD []
              inline_comments := parsed.inline_comments.getD []
              totalScaled := scaled
              maxMarks := mm }⟩

/-! ### Static semantics of `evaluate.js`

`evaluate.js` is an ES module.  ECMAScript static semantics make it an early
Syntax Error if the lexically declared names of a block contain any duplicate
entries; a source file containing such a block fails at parse time, before
any statement runs, so the module never evaluates and its default export
never exists. -/

/-- The identifiers lexically declared (`const`/`let`) directly in the
`try` block of the default export of `evaluate.js` (lines 14–123), in source
order: line 16 declares `body`; the destructuring on line 17 declares
`question`, `maxMarks`, `examType`, `timeLimit`, `texts`, `images`; then
`userContent` (line 22), `systemPrompt` (line 53), `completion` (line 92),
`raw` (line 102), `parsed` (line 103), `rawOutOf100` (line 106), `maxMarks`
again (line 107), `totalScaled` (line 109) and `resp` (line 111).
Declarations inside nested blocks (`bigText`/`trimmed` in the
`if (texts.length)` block, `img` in the `for` head) belong to inner scopes
and are excluded. -/
def evaluateJsTryBlockLexicalNames : List (List Char) :=
  [str "body", str "question", str "maxMarks", str "examType", str "timeLimit",
   str "texts", str "images", str "userContent", str "systemPrompt",
   str "completion", str "raw", str "parsed", str "rawOutOf100",
   str "maxMarks", str "totalScaled", str "resp"]

/-- Whether a list of declared names contains a duplicate entry — the
condition under which ECMAScript raises the early Syntax Error
`Identifier has already been declared` for a block. -/
def hasDuplicateName : List (List Char) → Bool
  | [] => false
  | n :: rest => rest.contains n || hasDuplicateName rest

/-! ### Helper lemmas about the handlers -/

theorem truthyStr_some {q : List Char} (h : q ≠ []) : truthyStr (some q) = true := by
  cases q with
  | nil => exact absurd rfl h
  | cons c cs => rfl

theorem truthyNum_some {m : ℚ} (h : m ≠ 0) : truthyNum (some m) = true := by
  simp [truthyNum, h]

theorem truthyStr_iff (x : Option (List Char)) :
    truthyStr x = true ↔ ∃ q, x = some q ∧ q ≠ [] := by
  cases x with
  | none => simp [truthyStr]
  | some s => cases s <;> simp [truthyStr]

theorem truthyNum_iff (x : Option ℚ) :
    truthyNum x = true ↔ ∃ m, x = some m ∧ m ≠ 0 := by
  cases x with
  | none => simp [truthyNum]
  | some v => simp [truthyNum]

/-- Shape of the `evaluate.mjs` handler's answer on an accepted POST request
whose model call completed. -/
theorem handler_accepted (b : ReqBody) (hq : truthyStr b.question = true)
    (hm : truthyNum b.maxMarks = true) (reply : Option ModelOutput) :
    handler true (str "POST") (some b) (.ok reply) =
      ⟨200, .json
        { rawOutOf100 := clamp (reply.getD emptyModelOutput).rawOutOf100 0 100
          rubric := (reply.getD emptyModelOutput).rubric.getD emptyRubric
          strengths := (reply.getD emptyModelOutput).strengths.getD []
          weaknesses := (reply.getD emptyModelOutput).weaknesses.getD []
          suggestions := (reply.getD emptyModelOutput).suggestions.getD []
          inline_comments := (reply.getD emptyModelOutput).inline_comments.getD []
          totalScaled := jsRound
            (clamp (reply.getD emptyModelOutput).rawOutOf100 0 100 / 100 * b.maxMarks.getD 0)
          maxMarks := b.maxMarks.getD 0 }⟩ := by
  simp [handler, hq, hm]

theorem jsRound_nonneg {q : ℚ} (h : 0 ≤ q) : 0 ≤ jsRound q := by
  rw [jsRound_eq_floor]
  exact Int.le_floor.mpr (by push_cast; linarith)

theorem jsRound_le_int {q : ℚ} {m : ℤ} (h : q ≤ (m : ℚ)) : jsRound q ≤ m := by
  rw [jsRound_eq_floor]
  have hlt : ⌊q + 1/2⌋ < m + 1 := Int.floor_lt.mpr (by push_cast; linarith)
  omega

theorem jsRound_zero : jsRound 0 = 0 := by
  rw [jsRound_eq_floor]; norm_num

/-! ### Server-side claims -/

/-- Request body for the C1 counterexample: accepted, `maxMarks = 1/2 > 0`. -/
def c1Body : ReqBody := ⟨some (str "q"), some (1/2), none, none, [], []⟩

/-- Model reply for the C1 counterexample: `rawOutOf100 = 100 ∈ [0,100]`. -/
def c1Reply : ModelOutput := ⟨some 100, none, none, none, none, none⟩

/-- Claim C1 counterexample: the request with `maxMarks = 1/2 > 0` is accepted
and the parsed raw score `100` lies in `[0,100]`, yet the handler's
`totalScaled = Math.round((100/100)*0.5) = 1` exceeds `maxMarks = 1/2`, so
`0 ≤ totalScaled ≤ maxMarks` fails. -/
theorem C1_scaling_cex :
    handler true (str "POST") (some c1Body) (.ok (some c1Reply)) =
      ⟨200, .json ⟨100, emptyRubric, [], [], [], [], 1, 1/2⟩⟩ ∧
    ¬ (((1 : ℤ) : ℚ) ≤ 1/2) := by
  constructor
  · with_unfolding_all decide
  · norm_num

/-- Claim C1, amended: for every request accepted by the serving handler
(`evaluate.mjs`) whose `maxMarks` is a positive integer `m` and every parsed
raw score `x ∈ [0,100]`, the handler computes `totalScaled = round(x/100*m)`,
and `0 ≤ totalScaled ≤ m`.  For a non-integer positive `maxMarks` the upper
bound can fail, as the counterexample shows; `evaluate.js` computes nothing
at all, its module failing to parse (duplicate `const maxMarks`). -/
theorem C1_scaling_amended (b : ReqBody) (mo : ModelOutput) (q : List Char) (m : ℤ) (x : ℚ)
    (hq : b.question = some q) (hq' : q ≠ []) (hm : b.maxMarks = some (m : ℚ)) (hmpos : 0 < m)
    (hx : mo.rawOutOf100 = some x) (hx0 : 0 ≤ x) (hx100 : x ≤ 100) :
    handler true (str "POST") (some b) (.ok (some mo)) =
      ⟨200, .json ⟨x, mo.rubric.getD emptyRubric, mo.strengths.getD [], mo.weaknesses.getD [],
        mo.suggestions.getD [], mo.inline_comments.getD [],
        jsRound (x / 100 * (m : ℚ)), (m : ℚ)⟩⟩ ∧
    0 ≤ jsRound (x / 100 * (m : ℚ)) ∧ (jsRound (x / 100 * (m : ℚ)) : ℚ) ≤ (m : ℚ) := by
  have hm0 : (m : ℚ) ≠ 0 := by
    exact_mod_cast hmpos.ne'
  have hm0' : (0 : ℚ) ≤ (m : ℚ) := by exact_mod_cast hmpos.le
  have ht : truthyStr b.question = true := by rw [hq]; exact truthyStr_some hq'
  have hn : truthyNum b.maxMarks = true := by rw [hm]; exact truthyNum_some hm0
  have hclamp : clamp mo.rawOutOf100 0 100 = x := by
    rw [hx]; simp [clamp, min_eq_right hx100, max_eq_right hx0]
  have hq1 : (0 : ℚ) ≤ x / 100 * (m : ℚ) :=
    mul_nonneg (div_nonneg hx0 (by norm_num)) hm0'
  have hq2 : x / 100 * (m : ℚ) ≤ (m : ℚ) := by
    calc x / 100 * (m : ℚ) ≤ 1 * (m : ℚ) := by
          exact mul_le_mul_of_nonneg_right ((div_le_one (by norm_num)).mpr hx100) hm0'
      _ = (m : ℚ) := one_mul _
  refine ⟨?_, jsRound_nonneg hq1, ?_⟩
  · rw [handler_accepted b ht hn (some mo)]
    simp [hclamp, hm]
  · exact_mod_cast jsRound_le_int hq2

/-- Accepted request used by several witnesses: the spec's end-to-end
scenario `{question: "Discuss X", maxMarks: 15}`. -/
def okBody : ReqBody := ⟨some (str "Discuss X"), some 15, none, none, [], []⟩

/-- A well-formed model reply with `rawOutOf100 = 70`. -/
def sampleReply : ModelOutput :=
  ⟨some 70, some ⟨some 28, some 14, some 11, some 7, some 7, some 3⟩,
    some [str "good coverage"], some [], some [str "add case law"], some []⟩

/-- Witness for the amended C1 at the spec's end-to-end scenario:
`maxMarks = 15`, raw score `70`, `totalScaled = round(70/100*15) = 11`. -/
theorem C1_scaling_amended_witness :
    (0 ≤ jsRound ((70 : ℚ) / 100 * ((15 : ℤ) : ℚ)) ∧
      (jsRound ((70 : ℚ) / 100 * ((15 : ℤ) : ℚ)) : ℚ) ≤ ((15 : ℤ) : ℚ)) ∧
    jsRound ((70 : ℚ) / 100 * ((15 : ℤ) : ℚ)) = 11 := by
  have h := C1_scaling_amended okBody sampleReply (str "Discuss X") 15 70 rfl (by decide)
    (by norm_num [okBody]) (by norm_num) rfl (by norm_num) (by norm_num)
  exact ⟨⟨h.2.1, h.2.2⟩, by with_unfolding_all decide⟩

/-- Claim C6: a model reply whose content fails to parse as JSON (the inner
`catch` substitutes `parsed = {}`) still yields a 200 response with
`rawOutOf100 = 0`, an empty rubric object and all four feedback lists empty
(and hence `totalScaled = 0`).  Stated for the serving handler
(`evaluate.mjs`); `evaluate.js` never loads (duplicate `const maxMarks`), so
no model reply ever reaches its parse-fallback lines. -/
theorem C6_parse_failure_defaults (b : ReqBody) (q : List Char) (m : ℚ)
    (hq : b.question = some q) (hq' : q ≠ []) (hm : b.maxMarks = some m) (hm' : m ≠ 0) :
    handler true (str "POST") (some b) (.ok none) =
      ⟨200, .json ⟨0, emptyRubric, [], [], [], [], 0, m⟩⟩ := by
  have ht : truthyStr b.question = true := by rw [hq]; exact truthyStr_some hq'
  have hn : truthyNum b.maxMarks = true := by rw [hm]; exact truthyNum_some hm'
  rw [handler_accepted b ht hn none]
  simp [emptyModelOutput, clamp, hm, jsRound_zero]

/-- Witness for C6: unparseable reply on the accepted request `okBody`. -/
theorem C6_parse_failure_defaults_witness :
    handler true (str "POST") (some okBody) (.ok none) =
      ⟨200, .json ⟨0, emptyRubric, [], [], [], [], 0, 15⟩⟩ :=
  C6_parse_failure_defaults okBody (str "Discuss X") 15 rfl (by decide) rfl
    (by norm_num)

/-- Request body lacking `question` (other fields present) for C7. -/
def c7Body : ReqBody := ⟨none, some 10, none, none, [], []⟩

set_option maxRecDepth 10000 in
/-- Claim C7 counterexample: in `evaluate.mjs`, the `OPENAI_API_KEY` check
precedes validation, so a POST request lacking `question` gets a 500 (not a
400) when the key is not configured. -/
theorem C7_missing_question_cex :
    handler false (str "POST") (some c7Body) (.ok none) =
      ⟨500, .text (str "OPENAI_API_KEY is not set")⟩ ∧
    (handler false (str "POST") (some c7Body) (.ok none)).statusCode ≠ 400 := by
  constructor
  · with_unfolding_all decide
  · with_unfolding_all decide

/-- Claim C7, amended: provided the API key is configured, every POST request
whose body lacks `question` is answered 400 by the serving handler
(`evaluate.mjs`), regardless of the other body fields and of the model call;
with the key unset, the key check fires first and the answer is 500.
(`evaluate.js` serves no response at all: its module fails to parse.) -/
theorem C7_missing_question_amended (b : ReqBody)
    (call : Except (List Char) (Option ModelOutput)) (h : b.question = none) :
    handler true (str "POST") (some b) call =
      ⟨400, .text (str "Missing question or maxMarks")⟩ := by
  simp [handler, h, truthyStr]

/-- Witness for the amended C7 at a concrete body lacking `question`. -/
theorem C7_missing_question_amended_witness :
    c7Body.question = none ∧
    handler true (str "POST") (some c7Body) (.ok none) =
      ⟨400, .text (str "Missing question or maxMarks")⟩ :=
  ⟨rfl, C7_missing_question_amended c7Body (.ok none) rfl⟩

/-- Accepted request body with a negative `maxMarks` for C8. -/
def c8Body : ReqBody := ⟨some (str "q"), some (-5), none, none, [], []⟩

/-- Claim C8 counterexample: the request `{question: "q", maxMarks: -5}` is
not rejected — it reaches the model and yields a 200 — although its
`maxMarks` is not positive: validation only tests truthiness (`!maxMarks`). -/
theorem C8_invariant_cex :
    (handler true (str "POST") (some c8Body) (.ok (some emptyModelOutput))).statusCode = 200 ∧
    c8Body.maxMarks = some (-5) ∧ ¬ (0 < (-5 : ℚ)) := by
  refine ⟨?_, rfl, by norm_num⟩
  with_unfolding_all decide

/-- Claim C8, amended: every POST request the serving handler
(`evaluate.mjs`) does not reject with a 400 has a non-empty `question` and a
*nonzero* (not necessarily positive) `maxMarks`; and every request failing
that truthiness check is answered 400 without the model call influencing the
response (rejected before the model is invoked).  (`evaluate.js` accepts
nothing: its module fails to parse.) -/
theorem C8_invariant_amended (b : ReqBody)
    (call : Except (List Char) (Option ModelOutput)) :
    ((handler true (str "POST") (some b) call).statusCode ≠ 400 →
      (∃ q, b.question = some q ∧ q ≠ []) ∧ ∃ m, b.maxMarks = some m ∧ m ≠ 0) ∧
    ((!truthyStr b.question || !truthyNum b.maxMarks) = true →
      handler true (str "POST") (some b) call =
        ⟨400, .text (str "Missing question or maxMarks")⟩) := by
  by_cases hval : (!truthyStr b.question || !truthyNum b.maxMarks) = true
  · have h1 : handler true (str "POST") (some b) call =
        ⟨400, .text (str "Missing question or maxMarks")⟩ := by
      simp [handler, hval]
    refine ⟨fun hst => absurd ?_ hst, fun _ => h1⟩
    rw [h1]
  · have hb : truthyStr b.question = true ∧ truthyNum b.maxMarks = true := by
      simpa [Bool.or_eq_true, Bool.not_eq_true', Bool.ne_false_iff, not_or] using hval
    refine ⟨fun _ => ?_, fun h => absurd h hval⟩
    exact ⟨(truthyStr_iff _).mp hb.1, (truthyNum_iff _).mp hb.2⟩

/-- Witness for the amended C8 at the accepted body `okBody`. -/
theorem C8_invariant_amended_witness :
    (handler true (str "POST") (some okBody) (.ok (some emptyModelOutput))).statusCode ≠ 400 ∧
    ((∃ q, okBody.question = some q ∧ q ≠ []) ∧ ∃ m, okBody.maxMarks = some m ∧ m ≠ 0) :=
  ⟨by with_unfolding_all decide,
    (C8_invariant_amended okBody (.ok (some emptyModelOutput))).1
      (by with_unfolding_all decide)⟩

set_option maxRecDepth 10000 in
/-- Claim C10 (code bug in `evaluate.js`): the claimed happy-path equivalence
cannot hold because `evaluate.js` never runs — the `try` block of its default
export lexically declares `maxMarks` twice (the destructuring on line 17 and
`const maxMarks = Number(body.maxMarks)` on line 107), which is the
duplicate-declaration early Syntax Error, so the module fails at parse time
and produces no response on any request.  On the same happy-path request the
serving handler (`evaluate.mjs`) answers 200 with the normalized result
below, which `evaluate.js` — plainly intended as a copy of the same handler —
can never match. -/
theorem C10_duplicate_maxMarks_bug :
    evaluateJsTryBlockLexicalNames.count (str "maxMarks") = 2 ∧
    hasDuplicateName evaluateJsTryBlockLexicalNames = true ∧
    handler true (str "POST") (some okBody) (.ok (some sampleReply)) =
      ⟨200, .json ⟨70, ⟨some 28, some 14, some 11, some 7, some 7, some 3⟩,
        [str "good coverage"], [], [str "add case law"], [], 11, 15⟩⟩ := by
  refine ⟨?_, ?_, ?_⟩ <;> with_unfolding_all decide

/-! ### Claim C3: truncation of the concatenated text block -/

/-- Claim C3: a concatenated text block longer than 150,000 characters is cut
to exactly its first 150,000 characters with the `"...[trimmed]"` marker
appended (after a newline); a block of at most 150,000 characters passes
through unchanged. -/
theorem C3_truncation (s : List Char) :
    (150000 < s.length →
      trimBlock s = s.take 150000 ++ str "\n...[trimmed]" ∧
      (s.take 150000).length = 150000 ∧
      List.IsSuffix (str "...[trimmed]") (trimBlock s)) ∧
    (s.length ≤ 150000 → trimBlock s = s) := by
  constructor
  · intro h
    refine ⟨if_pos h, ?_, ?_⟩
    · rw [List.length_take]; omega
    · rw [show trimBlock s = s.take 150000 ++ str "\n...[trimmed]" from if_pos h]
      refine ⟨s.take 150000 ++ ['\n'], ?_⟩
      rw [List.append_assoc, List.singleton_append]
      rfl
  · intro h
    exact if_neg (by omega)

/-- Witness for C3: a 150,001-character block is cut to 150,000 characters
plus the marker, and a short block is unchanged. -/
theorem C3_truncation_witness :
    150000 < (List.replicate 150001 'a').length ∧
    trimBlock (List.replicate 150001 'a') =
      List.replicate 150000 'a' ++ str "\n...[trimmed]" ∧
    trimBlock (str "short") = str "short" := by
  have h := (C3_truncation (List.replicate 150001 'a')).1
    (by rw [List.length_replicate]; omega)
  refine ⟨by rw [List.length_replicate]; omega, ?_, (C3_truncation (str "short")).2 (by decide)⟩
  rw [h.1, List.take_replicate]
  norm_num

/-! ### Content assembler (public/app.js): PDF branch -/

/-- JS `String.prototype.trim` (whitespace as recognized by
`Char.isWhitespace`; every whitespace character arising in the embedded
computations is ASCII, where the two notions agree). -/
def jsTrim (l : List Char) : List Char :=
  ((l.dropWhile Char.isWhitespace).reverse.dropWhile Char.isWhitespace).reverse

/-- Decimal digit characters of `m`, given enough fuel (structural recursion
on the fuel). -/
def natDigitsAux : Nat → Nat → List Char
  | 0, _ => []
  | fuel + 1, m =>
    if m < 10 then [Char.ofNat (48 + m)]
    else natDigitsAux fuel (m / 10) ++ [Char.ofNat (48 + m % 10)]

/-- How JS renders the nonnegative integer `n` into a template string. -/
def natDigits (n : Nat) : List Char := natDigitsAux (n + 1) n

/-- Result of `extractFromPDF` in `app.js`: the concatenated page text and
the OCR-fallback page renderings.  A rendered page is represented by its
1-based page number; the rasterized JPEG data URL is opaque and never
inspected by the program. -/
structure PdfExtract where
  text : List Char
  pagesAsImages : List Nat
deriving DecidableEq

/-- `fullText` of `extractFromPDF` (`app.js` lines 227–232), parametrized by
the per-page text the PDF library returns (`pageTexts`, one entry per page):
the concatenation of `"\n\n[Page i] " + pageText` over the first
`min(numPages, 20)` pages. -/
def pdfFullText (pageTexts : List (List Char)) : List Char :=
  (List.range (min pageTexts.length 20)).foldl
    (fun acc i => acc ++ str "\n\n[Page " ++ natDigits (i + 1) ++ str "] " ++ pageTexts.getD i [])
    []

/-- `extractFromPDF(file)` from `app.js` lines 221–248: extract text, and if
`(!fullText || fullText.trim().length < 500)` render the first
`min(numPages, 8)` pages to fallback images. -/
def extractFromPDF (pageTexts : List (List Char)) : PdfExtract :=
  let fullText := pdfFullText pageTexts
  ⟨fullText,
    if fullText.isEmpty || decide ((jsTrim fullText).length < 500) then
      (List.range (min pageTexts.length 8)).map (· + 1)
    else []⟩

/-- The PDF branch of the evaluate-button click handler (`app.js` lines
110–119): `if (text && text.trim().length > 500)` contribute the text under
the file's name, `else` push up to the first 8 fallback page images.  Returns
the pair (texts contributed, image pages contributed). -/
def pdfBranch (name : List Char) (ex : PdfExtract) : List TextSource × List Nat :=
  if !ex.text.isEmpty && decide (500 < (jsTrim ex.text).length) then
    ([⟨some name, ex.text⟩], [])
  else
    ([], ex.pagesAsImages.take 8)

/-- The extracted text is a non-empty (hence truthy) string whenever its
trimmed form has positive length. -/
theorem pdfFullText_not_empty {p : List (List Char)}
    (h : 0 < (jsTrim (pdfFullText p)).length) : (pdfFullText p).isEmpty = false := by
  cases hc : pdfFullText p with
  | nil => rw [hc] at h; simp [jsTrim] at h
  | cons c cs => rfl

/-- Core of the 500-boundary analysis: at trimmed length exactly 500, the
extractor renders no fallback images (`< 500` fails) and the click handler
keeps no text (`> 500` fails), so the file contributes nothing. -/
theorem pdfBranch_dropped_of_500 (pageTexts : List (List Char)) (name : List Char)
    (h : (jsTrim (extractFromPDF pageTexts).text).length = 500) :
    pdfBranch name (extractFromPDF pageTexts) = ([], []) := by
  have h' : (jsTrim (pdfFullText pageTexts)).length = 500 := h
  have hemp : (pdfFullText pageTexts).isEmpty = false :=
    pdfFullText_not_empty (by omega)
  have hlt : decide ((jsTrim (pdfFullText pageTexts)).length < 500) = false := by
    rw [h']; simp
  have himg : (extractFromPDF pageTexts).pagesAsImages = [] := by
    simp only [extractFromPDF]
    rw [hemp, hlt]
    simp
  have hcond : (!(extractFromPDF pageTexts).text.isEmpty &&
      decide (500 < (jsTrim (extractFromPDF pageTexts).text).length)) = false := by
    rw [show (jsTrim (extractFromPDF pageTexts).text).length = 500 from h]
    simp
  simp [pdfBranch, hcond, himg]

/-- Claim C9: a PDF whose extracted trimmed text has length exactly 500
contributes neither text nor fallback images — the click handler requires
length strictly greater than 500 to keep the text, while the extractor
renders fallback pages only for length strictly less than 500, so the
document is silently dropped from the payload. -/
theorem C9_pdf_dropped_at_500 (pageTexts : List (List Char)) (name : List Char)
    (h : (jsTrim (extractFromPDF pageTexts).text).length = 500) :
    pdfBranch name (extractFromPDF pageTexts) = ([], []) :=
  pdfBranch_dropped_of_500 pageTexts name h

set_option maxRecDepth 100000 in
/-- Witness for C9: one page whose text is 491 `'a'`s; the page marker brings
the trimmed length to exactly 500, and the document contributes nothing. -/
theorem C9_pdf_dropped_at_500_witness :
    (jsTrim (extractFromPDF [List.replicate 491 'a']).text).length = 500 ∧
    pdfBranch (str "scan.pdf") (extractFromPDF [List.replicate 491 'a']) = ([], []) :=
  ⟨by with_unfolding_all decide,
    C9_pdf_dropped_at_500 [List.replicate 491 'a'] (str "scan.pdf")
      (by with_unfolding_all decide)⟩

set_option maxRecDepth 100000 in
/-- Claim C4 counterexample: a one-page PDF whose extracted trimmed text has
length exactly 500 does *not* contribute as text — the click handler's
contribution pair is `([], [])` (and in particular its text component is
empty), contradicting the claimed text contribution at the 500 boundary. -/
theorem C4_pdf_boundary_cex :
    (jsTrim (extractFromPDF [List.replicate 491 'a']).text).length = 500 ∧
    pdfBranch (str "notes.pdf") (extractFromPDF [List.replicate 491 'a']) = ([], []) ∧
    (pdfBranch (str "notes.pdf") (extractFromPDF [List.replicate 491 'a'])).1 = [] := by
  refine ⟨?_, ?_, ?_⟩ <;> with_unfolding_all decide

/-- Claim C4, amended: at trimmed text length exactly 500 the document
contributes neither text nor images (it is dropped); at length 499 — and any
length below 500 — the image fallback fires, contributing the rendered pages;
text is contributed exactly when the trimmed length strictly exceeds 500. -/
theorem C4_pdf_boundary_amended (pageTexts : List (List Char)) (name : List Char) :
    ((jsTrim (extractFromPDF pageTexts).text).length = 500 →
      pdfBranch name (extractFromPDF pageTexts) = ([], [])) ∧
    ((jsTrim (extractFromPDF pageTexts).text).length = 499 →
      pdfBranch name (extractFromPDF pageTexts) =
        ([], (List.range (min pageTexts.length 8)).map (· + 1))) ∧
    (500 < (jsTrim (extractFromPDF pageTexts).text).length →
      pdfBranch name (extractFromPDF pageTexts) =
        ([⟨some name, (extractFromPDF pageTexts).text⟩], [])) := by
  refine ⟨pdfBranch_dropped_of_500 pageTexts name, ?_, ?_⟩
  · intro h
    have h' : (jsTrim (pdfFullText pageTexts)).length = 499 := h
    have hlt : decide ((jsTrim (pdfFullText pageTexts)).length < 500) = true := by
      rw [h']; simp
    have himg : (extractFromPDF pageTexts).pagesAsImages =
        (List.range (min pageTexts.length 8)).map (· + 1) := by
      simp only [extractFromPDF]
      rw [hlt]
      simp
    have hcond : (!(extractFromPDF pageTexts).text.isEmpty &&
        decide (500 < (jsTrim (extractFromPDF pageTexts).text).length)) = false := by
      rw [show (jsTrim (extractFromPDF pageTexts).text).length = 499 from h]
      simp
    have htake : ((List.range (min pageTexts.length 8)).map (· + 1)).take 8 =
        (List.range (min pageTexts.length 8)).map (· + 1) := by
      apply List.take_of_length_le
      rw [List.length_map, List.length_range]
      omega
    simp [pdfBranch, hcond, himg, htake]
  · intro h
    have h' : 500 < (jsTrim (pdfFullText pageTexts)).length := h
    have hemp : (pdfFullText pageTexts).isEmpty = false :=
      pdfFullText_not_empty (by omega)
    have h2 : (!(pdfFullText pageTexts).isEmpty) = true := by rw [hemp]; rfl
    have hcond : (!(extractFromPDF pageTexts).text.isEmpty &&
        decide (500 < (jsTrim (extractFromPDF pageTexts).text).length)) = true := by
      rw [show (extractFromPDF pageTexts).text = pdfFullText pageTexts from rfl, h2]
      simp only [Bool.true_and, decide_eq_true_eq]
      exact h'
    simp [pdfBranch, hcond]

set_option maxRecDepth 100000 in
/-- Witness for the amended C4: a one-page PDF whose trimmed text length is
499 contributes no text and exactly its one rendered fallback page. -/
theorem C4_pdf_boundary_amended_witness :
    (jsTrim (extractFromPDF [List.replicate 490 'a']).text).length = 499 ∧
    pdfBranch (str "notes.pdf") (extractFromPDF [List.replicate 490 'a']) = ([], [1]) := by
  have h := (C4_pdf_boundary_amended [List.replicate 490 'a'] (str "notes.pdf")).2.1
    (by with_unfolding_all decide)
  exact ⟨by with_unfolding_all decide, by rw [h]; with_unfolding_all decide⟩

/-! ### Content assembler (public/app.js): PPTX slide ordering -/

/-- `Number` of a run of decimal digit characters (the regex capture group
converted by `Number(...)`). -/
def digitsVal (ds : List Char) : Nat :=
  ds.foldl (fun a c => 10 * a + (c.toNat - 48)) 0

/-- Match of the regex `/slide(\d+)\.xml/` anchored at the head of `l`:
`"slide"`, then a maximal nonempty digit run, then `".xml"`. -/
def matchSlideHere (l : List Char) : Option Nat :=
  if l.take 5 = str "slide" then
    let ds := (l.drop 5).takeWhile Char.isDigit
    if ds.isEmpty then none
    else if ((l.drop 5).drop ds.length).take 4 = str ".xml" then some (digitsVal ds)
    else none
  else none

/-- Leftmost match of `/slide(\d+)\.xml/` in `l` (JS `String.prototype.match`
with a non-global regex scans match positions left to right). -/
def findSlideNum : List Char → Option Nat
  | [] => none
  | c :: rest =>
    match matchSlideHere (c :: rest) with
    | some n => some n
    | none => findSlideNum rest

/-- `Number(p.match(/slide(\d+)\.xml/)?.[1] || 0)` from the sort comparator
of `app.js` lines 262–263. -/
def slideKey (p : List Char) : Nat := (findSlideNum p).getD 0

/-- The filter of `app.js` line 260: keep archive entries whose path starts
with `"ppt/slides/slide"` and ends with `".xml"`. -/
def isSlidePath (p : List Char) : Bool :=
  p.take 16 = str "ppt/slides/slide" && p.drop (p.length - 4) = str ".xml"

/-- `slideFiles` after the sort of `app.js` lines 260–265: filter, then sort
with the comparator `(a, b) => na - nb`.  JS `Array.prototype.sort` is
required to be stable, and with this comparator it returns the stable
reordering of the array that is nondecreasing in `slideKey`; that reordering
is exactly what `List.insertionSort` computes. -/
def sortedSlideFiles (keys : List (List Char)) : List (List Char) :=
  (keys.filter isSlidePath).insertionSort (fun a b => slideKey a ≤ slideKey b)

/-- Claim C5: the assembler orders slide parts by the numeric index embedded
in the slide filename — the sorted list is always nondecreasing in that index
— and on the files `slide2.xml`, `slide10.xml`, `slide1.xml` the resulting
order is `1, 2, 10` (numeric, not lexical: lexically `slide10.xml` would sort
before `slide2.xml`). -/
theorem C5_slide_ordering :
    (∀ keys : List (List Char),
      (sortedSlideFiles keys).Pairwise (fun a b => slideKey a ≤ slideKey b)) ∧
    sortedSlideFiles
        [str "ppt/slides/slide2.xml", str "ppt/slides/slide10.xml",
          str "ppt/slides/slide1.xml"] =
      [str "ppt/slides/slide1.xml", str "ppt/slides/slide2.xml",
        str "ppt/slides/slide10.xml"] ∧
    slideKey (str "ppt/slides/slide1.xml") = 1 ∧
    slideKey (str "ppt/slides/slide2.xml") = 2 ∧
    slideKey (str "ppt/slides/slide10.xml") = 10 := by
  refine ⟨fun keys => ?_, ?_, ?_, ?_, ?_⟩
  · haveI h1 : IsTotal (List Char) (fun a b => slideKey a ≤ slideKey b) :=
      ⟨fun a b => Nat.le_total _ _⟩
    haveI h2 : IsTrans (List Char) (fun a b => slideKey a ≤ slideKey b) :=
      ⟨fun a b c hab hbc => Nat.le_trans hab hbc⟩
    exact List.sorted_insertionSort _ _
  all_goals with_unfolding_all decide
